import Mathlib

/-!
Verification of the marker quality heuristic of `quickscan-ar-v2`
(`src/src/components/UploadInterface.tsx`, function `validateMarkerImage`).

The heuristic decodes a marker image into an RGBA byte grid, scans it once
to accumulate a vertical-gradient contrast measure and an edge count,
derives a quality score clamped to [60, 100], and emits a fixed set of
issue and recommendation strings. We embed the pixel arithmetic over `ℚ`
(exact arithmetic in place of JavaScript doubles) and the byte loop as a
fold over the list of pixel byte offsets, mirroring the source line by line.
-/

/-- A decoded image: dimensions and the RGBA byte array obtained from the
canvas (`ctx.getImageData`).  `data i` is the `i`-th byte of the array; the
array holds `4 * width * height` bytes, four (R, G, B, A) per pixel in
row-major order.  Byte values are naturals (intended range 0..255). -/
structure Image where
  width : ℕ
  height : ℕ
  data : ℕ → ℕ

/-- The record resolved by `validateMarkerImage`
(`interface ValidationResult`, lines 10-14). -/
structure ValidationResult where
  quality : ℚ
  issues : List String
  recommendations : List String
deriving DecidableEq

/-- `brightness` at byte offset `i`: `(data[i] + data[i+1] + data[i+2]) / 3`
(lines 44-47 and, for the row above, line 51). -/
def brightnessAt (img : Image) (i : ℕ) : ℚ :=
  ((img.data i : ℚ) + (img.data (i + 1) : ℚ) + (img.data (i + 2) : ℚ)) / 3

/-- One iteration of the scan loop (lines 43-56).  The state is the pair
`(totalContrast, edgeCount)`; `i` is the current byte offset.  A pixel
contributes only when `i > img.width * 4` (line 50, strict comparison):
its contrast against the pixel one row above is added to `totalContrast`
and, when that contrast exceeds 30, `edgeCount` is incremented. -/
def edgeStep (img : Image) (st : ℚ × ℕ) (i : ℕ) : ℚ × ℕ :=
  if img.width * 4 < i then
    let prevBrightness := brightnessAt img (i - img.width * 4)
    let contrast := |brightnessAt img i - prevBrightness|
    (st.1 + contrast, if 30 < contrast then st.2 + 1 else st.2)
  else st

/-- The full scan: the loop `for (i = 0; i < data.length; i += 4)` visits the
byte offsets `0, 4, ..., 4*(width*height - 1)` (line 43), starting from
`totalContrast = 0`, `edgeCount = 0` (lines 40-41). -/
def edgeScan (img : Image) : ℚ × ℕ :=
  ((List.range (img.width * img.height)).map (fun p => p * 4)).foldl
    (edgeStep img) (0, 0)

/-- `data.length / 4`, the number of pixels (denominator on lines 58-59). -/
def pixelCount (img : Image) : ℕ := img.width * img.height

/-- `avgContrast = totalContrast / (data.length / 4)` (line 58). -/
def avgContrast (img : Image) : ℚ :=
  (edgeScan img).1 / (pixelCount img : ℚ)

/-- `edgeDensity = edgeCount / (data.length / 4)` (line 59). -/
def edgeDensity (img : Image) : ℚ :=
  ((edgeScan img).2 : ℚ) / (pixelCount img : ℚ)

/-- `img.width / img.height` (line 74). -/
def aspect (img : Image) : ℚ := (img.width : ℚ) / (img.height : ℚ)

/-- `quality = Math.min(100, Math.max(60, (avgContrast / 30) * 100 +
edgeDensity * 1000))` (line 62). -/
def quality (img : Image) : ℚ :=
  min 100 (max 60 (avgContrast img / 30 * 100 + edgeDensity img * 1000))

/-- The result resolved for a decoded image (lines 58-91).  The issue and
recommendation lists are built by sequential conditional pushes, rendered
here as concatenation of conditional singletons in the source's order. -/
def validateMarkerImage (img : Image) : ValidationResult :=
  { quality := quality img
    issues :=
      (if img.width < 256 ∨ img.height < 256 then
        ["Image resolution is too low"] else []) ++
      (if aspect img < 1/2 ∨ 2 < aspect img then
        ["Unusual aspect ratio detected"] else []) ++
      (if avgContrast img < 15 then
        ["Low contrast detected"] else [])
    recommendations :=
      (if img.width < 256 ∨ img.height < 256 then
        ["Use images with at least 256x256 resolution"] else []) ++
      (if aspect img < 1/2 ∨ 2 < aspect img then
        ["Use images with aspect ratios between 1:2 and 2:1"] else []) ++
      (if avgContrast img < 15 then
        ["Use images with clear, high-contrast features"] else []) ++
      (if edgeDensity img < 1/10 then
        ["Add more distinct features or patterns for better tracking"] else []) }

/-- C1: For every decoded image, the quality score equals
`clamp((avgContrast/30)*100 + edgeDensity*1000, min=60, max=100)`;
consequently `60 ≤ quality ≤ 100`, so a score below 60 is unreachable. -/
theorem quality_clamped (img : Image) :
    (validateMarkerImage img).quality
      = min 100 (max 60 (avgContrast img / 30 * 100 + edgeDensity img * 1000)) ∧
    60 ≤ (validateMarkerImage img).quality ∧
    (validateMarkerImage img).quality ≤ 100 := by
  refine ⟨rfl, ?_, ?_⟩
  · exact le_min (by norm_num) (le_max_left _ _)
  · exact min_le_left _ _

/-- The contribution of the loop iteration at byte offset `i` to
`totalContrast`: zero unless `i > width * 4`. -/
def contrib (img : Image) (i : ℕ) : ℚ :=
  if img.width * 4 < i then
    |brightnessAt img i - brightnessAt img (i - img.width * 4)|
  else 0

/-- The contribution of the loop iteration at byte offset `i` to
`edgeCount`: one exactly when the pixel contributes and its contrast
exceeds 30. -/
def contribCount (img : Image) (i : ℕ) : ℕ :=
  if img.width * 4 < i ∧
      30 < |brightnessAt img i - brightnessAt img (i - img.width * 4)| then 1
  else 0

lemma edgeStep_eq (img : Image) (t : ℚ) (e : ℕ) (i : ℕ) :
    edgeStep img (t, e) i = (t + contrib img i, e + contribCount img i) := by
  unfold edgeStep contrib contribCount
  split_ifs with h h2 h3 <;> simp_all

lemma foldl_edgeStep (img : Image) (l : List ℕ) (t : ℚ) (e : ℕ) :
    l.foldl (edgeStep img) (t, e)
      = (t + (l.map (contrib img)).sum, e + (l.map (contribCount img)).sum) := by
  induction l generalizing t e with
  | nil => simp
  | cons a l ih =>
      rw [List.foldl_cons, edgeStep_eq, ih]
      simp only [List.map_cons, List.sum_cons]
      refine Prod.ext ?_ ?_
      · simp [add_assoc]
      · simp [add_assoc]

/-- The brightness of pixel `p` (pixels in row-major order, 4 bytes each). -/
def pixelBrightness (img : Image) (p : ℕ) : ℚ := brightnessAt img (p * 4)

lemma contrib_pixel (img : Image) (p : ℕ) :
    contrib img (p * 4)
      = if img.width < p then
          |pixelBrightness img p - pixelBrightness img (p - img.width)|
        else 0 := by
  unfold contrib pixelBrightness
  by_cases h : img.width < p
  · rw [if_pos (by omega), if_pos h,
      show p * 4 - img.width * 4 = (p - img.width) * 4 from by omega]
  · rw [if_neg (by omega), if_neg h]

lemma contribCount_pixel (img : Image) (p : ℕ) :
    contribCount img (p * 4)
      = if img.width < p ∧
            30 < |pixelBrightness img p - pixelBrightness img (p - img.width)| then 1
        else 0 := by
  unfold contribCount pixelBrightness
  by_cases h : img.width < p
  · rw [show p * 4 - img.width * 4 = (p - img.width) * 4 from by omega]
    by_cases h2 : 30 < |brightnessAt img (p * 4) - brightnessAt img ((p - img.width) * 4)|
    · rw [if_pos ⟨by omega, h2⟩, if_pos ⟨h, h2⟩]
    · rw [if_neg (by tauto), if_neg (by tauto)]
  · rw [if_neg (by omega), if_neg (by tauto)]

lemma edgeScan_eq (img : Image) :
    edgeScan img
      = (((List.range (img.width * img.height)).map
            (fun p => contrib img (p * 4))).sum,
         ((List.range (img.width * img.height)).map
            (fun p => contribCount img (p * 4))).sum) := by
  unfold edgeScan
  rw [foldl_edgeStep]
  simp [List.map_map, Function.comp_def]

/-- The edge pass exactly as the claim words it: a pixel contributes as soon
as its linear index is AT LEAST one full row (`W` pixels) from the start,
i.e. the loop guard is `i ≥ width * 4` instead of the source's strict
`i > width * 4` (line 50). -/
def claimEdgeStep (img : Image) (st : ℚ × ℕ) (i : ℕ) : ℚ × ℕ :=
  if img.width * 4 ≤ i then
    let prevBrightness := brightnessAt img (i - img.width * 4)
    let contrast := |brightnessAt img i - prevBrightness|
    (st.1 + contrast, if 30 < contrast then st.2 + 1 else st.2)
  else st

/-- The scan the claim describes, differing from `edgeScan` only in the
non-strict guard. -/
def claimEdgeScan (img : Image) : ℚ × ℕ :=
  ((List.range (img.width * img.height)).map (fun p => p * 4)).foldl
    (claimEdgeStep img) (0, 0)

/-- A 1×2 image: a black pixel on top of a white pixel.  The second pixel's
linear index (1) is exactly one full row (W = 1 pixel) from the start. -/
def cexImg : Image := ⟨1, 2, fun i => if i < 4 then 0 else 255⟩

/-- C2, counterexample: on `cexImg` the claim's scan (guard `≥`) would add
contrast 255 and one edge for the second pixel, but the source's scan
(guard `>`, line 50) skips that pixel entirely and returns `(0, 0)`:
the pixel whose index is exactly one row from the start contributes
nothing, so the claim as stated is false. -/
theorem claimEdgeScan_ne_edgeScan_on_cexImg :
    claimEdgeScan cexImg = (255, 1) ∧ edgeScan cexImg = (0, 0) ∧
    avgContrast cexImg = 0 ∧ edgeDensity cexImg = 0 := by
  refine ⟨?_, ?_, ?_, ?_⟩
  · simp [claimEdgeScan, claimEdgeStep, brightnessAt, cexImg, List.range_succ]
    norm_num
  · simp [edgeScan, edgeStep, brightnessAt, cexImg, List.range_succ]
  · simp [avgContrast, pixelCount, edgeScan, edgeStep, brightnessAt, cexImg,
      List.range_succ]
  · simp [edgeDensity, pixelCount, edgeScan, edgeStep, brightnessAt, cexImg,
      List.range_succ]

/-- C2, amended: in the edge pass, a pixel contributes exactly when its
linear index is STRICTLY MORE than one full row (`W` pixels) from the
start; such a pixel adds `|brightness(pixel) - brightness(pixel one row
above)|` to `totalContrast` and bumps `edgeCount` exactly when that
contrast exceeds 30; all other pixels (the first row and the first pixel
of the second row) contribute nothing; `avgContrast` and `edgeDensity`
divide the total and the count by the full pixel count `W*H`. -/
theorem edgeScan_pixel_spec (img : Image) :
    (edgeScan img).1
      = ((List.range (pixelCount img)).map (fun p =>
          if img.width < p then
            |pixelBrightness img p - pixelBrightness img (p - img.width)|
          else 0)).sum ∧
    (edgeScan img).2
      = ((List.range (pixelCount img)).map (fun p =>
          if img.width < p ∧
              30 < |pixelBrightness img p - pixelBrightness img (p - img.width)|
            then 1 else 0)).sum ∧
    avgContrast img = (edgeScan img).1 / (img.width * img.height : ℚ) ∧
    edgeDensity img = ((edgeScan img).2 : ℚ) / (img.width * img.height : ℚ) := by
  refine ⟨?_, ?_, ?_, ?_⟩
  · rw [edgeScan_eq]
    simp only [contrib_pixel, pixelCount]
  · rw [edgeScan_eq]
    simp only [contribCount_pixel, pixelCount]
  · unfold avgContrast pixelCount
    push_cast
    rfl
  · unfold edgeDensity pixelCount
    push_cast
    rfl

lemma mem_issues_resolution (img : Image) :
    "Image resolution is too low" ∈ (validateMarkerImage img).issues ↔
      (img.width < 256 ∨ img.height < 256) := by
  unfold validateMarkerImage
  split_ifs <;> simp_all

lemma mem_issues_aspect (img : Image) :
    "Unusual aspect ratio detected" ∈ (validateMarkerImage img).issues ↔
      (aspect img < 1/2 ∨ 2 < aspect img) := by
  unfold validateMarkerImage
  split_ifs <;> simp_all

lemma mem_issues_contrast (img : Image) :
    "Low contrast detected" ∈ (validateMarkerImage img).issues ↔
      avgContrast img < 15 := by
  unfold validateMarkerImage
  split_ifs <;> simp_all

lemma mem_recs_edge (img : Image) :
    "Add more distinct features or patterns for better tracking"
        ∈ (validateMarkerImage img).recommendations ↔
      edgeDensity img < 1/10 := by
  unfold validateMarkerImage
  split_ifs <;> simp_all

/-- C4: the issues list contains "Image resolution is too low" exactly when
`width < 256 ∨ height < 256`, "Unusual aspect ratio detected" exactly when
`width/height < 1/2 ∨ width/height > 2`, and "Low contrast detected"
exactly when `avgContrast < 15`; the issues and recommendations are
appended in that fixed order with each issue's matching recommendation;
every 100×100 image reports the resolution issue and every 1000×100 image
reports the aspect-ratio issue, regardless of pixel content. -/
theorem issues_characterization (img : Image) :
    ("Image resolution is too low" ∈ (validateMarkerImage img).issues ↔
      (img.width < 256 ∨ img.height < 256)) ∧
    ("Unusual aspect ratio detected" ∈ (validateMarkerImage img).issues ↔
      (aspect img < 1/2 ∨ 2 < aspect img)) ∧
    ("Low contrast detected" ∈ (validateMarkerImage img).issues ↔
      avgContrast img < 15) ∧
    (validateMarkerImage img).issues =
      (if img.width < 256 ∨ img.height < 256 then
        ["Image resolution is too low"] else []) ++
      (if aspect img < 1/2 ∨ 2 < aspect img then
        ["Unusual aspect ratio detected"] else []) ++
      (if avgContrast img < 15 then
        ["Low contrast detected"] else []) ∧
    (validateMarkerImage img).recommendations =
      (if img.width < 256 ∨ img.height < 256 then
        ["Use images with at least 256x256 resolution"] else []) ++
      (if aspect img < 1/2 ∨ 2 < aspect img then
        ["Use images with aspect ratios between 1:2 and 2:1"] else []) ++
      (if avgContrast img < 15 then
        ["Use images with clear, high-contrast features"] else []) ++
      (if edgeDensity img < 1/10 then
        ["Add more distinct features or patterns for better tracking"] else []) ∧
    (∀ d : ℕ → ℕ,
      "Image resolution is too low"
        ∈ (validateMarkerImage ⟨100, 100, d⟩).issues) ∧
    (∀ d : ℕ → ℕ,
      "Unusual aspect ratio detected"
        ∈ (validateMarkerImage ⟨1000, 100, d⟩).issues) := by
  refine ⟨mem_issues_resolution img, mem_issues_aspect img,
    mem_issues_contrast img, rfl, rfl, ?_, ?_⟩
  · intro d
    exact (mem_issues_resolution _).mpr (Or.inl (by norm_num))
  · intro d
    refine (mem_issues_aspect _).mpr (Or.inr ?_)
    show (2 : ℚ) < (1000 : ℕ) / (100 : ℕ)
    norm_num

/-- C5: the recommendation "Add more distinct features or patterns for
better tracking" appears in the recommendations list if and only if
`edgeDensity < 0.1`, independently of which issues are present. -/
theorem edge_recommendation_iff (img : Image) :
    "Add more distinct features or patterns for better tracking"
        ∈ (validateMarkerImage img).recommendations ↔
      edgeDensity img < 1/10 :=
  mem_recs_edge img

/-- C10: the issues list is a subsequence of the fixed three-element issue
list, the recommendations list is a subsequence of the fixed four-element
recommendation list, and the recommendations list is at least as long as
the issues list (so a non-empty issues list forces a non-empty
recommendations list). -/
theorem lists_structure (img : Image) :
    (validateMarkerImage img).issues.Sublist
      ["Image resolution is too low", "Unusual aspect ratio detected",
       "Low contrast detected"] ∧
    (validateMarkerImage img).recommendations.Sublist
      ["Use images with at least 256x256 resolution",
       "Use images with aspect ratios between 1:2 and 2:1",
       "Use images with clear, high-contrast features",
       "Add more distinct features or patterns for better tracking"] ∧
    (validateMarkerImage img).issues.length
      ≤ (validateMarkerImage img).recommendations.length := by
  unfold validateMarkerImage
  refine ⟨?_, ?_, ?_⟩ <;> simp only <;> split_ifs <;> simp_all

/-- C8: determinism — the heuristic computed on two images with identical
dimensions and bit-identical pixel data produces identical results (same
quality, same issues sequence, same recommendations sequence). -/
theorem validate_deterministic (img1 img2 : Image)
    (hw : img1.width = img2.width) (hh : img1.height = img2.height)
    (hd : ∀ i, img1.data i = img2.data i) :
    validateMarkerImage img1 = validateMarkerImage img2 := by
  obtain ⟨w1, h1, d1⟩ := img1
  obtain ⟨w2, h2, d2⟩ := img2
  cases hw
  cases hh
  cases funext hd
  rfl

theorem validate_deterministic_witness :
    cexImg.width = cexImg.width ∧ cexImg.height = cexImg.height ∧
    (∀ i, cexImg.data i = cexImg.data i) ∧
    validateMarkerImage cexImg = validateMarkerImage cexImg :=
  ⟨rfl, rfl, fun _ => rfl,
    validate_deterministic cexImg cexImg rfl rfl (fun _ => rfl)⟩

lemma brightness_uniform (img : Image)
    (hc : ∀ i, img.data i = img.data (i % 4)) (q : ℕ) :
    brightnessAt img (q * 4)
      = ((img.data 0 : ℚ) + (img.data 1 : ℚ) + (img.data 2 : ℚ)) / 3 := by
  unfold brightnessAt
  rw [hc (q * 4), hc (q * 4 + 1), hc (q * 4 + 2),
    show q * 4 % 4 = 0 from by omega,
    show (q * 4 + 1) % 4 = 1 from by omega,
    show (q * 4 + 2) % 4 = 2 from by omega]

lemma contrib_uniform (img : Image)
    (hc : ∀ i, img.data i = img.data (i % 4)) (p : ℕ) :
    contrib img (p * 4) = 0 := by
  rw [contrib_pixel]
  split_ifs with h
  · unfold pixelBrightness
    rw [brightness_uniform img hc, brightness_uniform img hc, sub_self, abs_zero]
  · rfl

lemma contribCount_uniform (img : Image)
    (hc : ∀ i, img.data i = img.data (i % 4)) (p : ℕ) :
    contribCount img (p * 4) = 0 := by
  rw [contribCount_pixel]
  rw [if_neg]
  rintro ⟨h1, h2⟩
  rw [show pixelBrightness img p - pixelBrightness img (p - img.width) = 0 from ?_,
    abs_zero] at h2
  · exact absurd h2 (by norm_num)
  · unfold pixelBrightness
    rw [brightness_uniform img hc, brightness_uniform img hc, sub_self]

lemma edgeScan_uniform (img : Image)
    (hc : ∀ i, img.data i = img.data (i % 4)) :
    edgeScan img = (0, 0) := by
  rw [edgeScan_eq]
  refine Prod.ext ?_ ?_ <;> simp only
  · apply List.sum_eq_zero
    intro x hx
    obtain ⟨p, _, rfl⟩ := List.mem_map.mp hx
    exact contrib_uniform img hc p
  · apply List.sum_eq_zero
    intro x hx
    obtain ⟨p, _, rfl⟩ := List.mem_map.mp hx
    exact contribCount_uniform img hc p

/-- C6: a uniform solid-color image (every pixel equal to pixel 0, i.e. the
byte array has period 4) of size at least 256×256 with aspect ratio 1:1
yields `avgContrast = 0` and `edgeDensity = 0`, its issues include
"Low contrast detected", and its quality clamps to exactly 60. -/
theorem uniform_image_validation (img : Image)
    (hw : 256 ≤ img.width) (hh : 256 ≤ img.height)
    (hsq : img.width = img.height)
    (hc : ∀ i, img.data i = img.data (i % 4)) :
    avgContrast img = 0 ∧ edgeDensity img = 0 ∧
    "Low contrast detected" ∈ (validateMarkerImage img).issues ∧
    (validateMarkerImage img).quality = 60 := by
  have hscan : edgeScan img = (0, 0) := edgeScan_uniform img hc
  have havg : avgContrast img = 0 := by
    unfold avgContrast
    rw [hscan]
    simp
  have hed : edgeDensity img = 0 := by
    unfold edgeDensity
    rw [hscan]
    simp
  refine ⟨havg, hed, ?_, ?_⟩
  · rw [mem_issues_contrast, havg]
    norm_num
  · show quality img = 60
    unfold quality
    rw [havg, hed]
    norm_num

/-- The 256×256 all-black image. -/
def img256 : Image := ⟨256, 256, fun _ => 0⟩

theorem uniform_image_validation_witness :
    (256 ≤ img256.width ∧ 256 ≤ img256.height ∧ img256.width = img256.height ∧
      (∀ i, img256.data i = img256.data (i % 4))) ∧
    (avgContrast img256 = 0 ∧ edgeDensity img256 = 0 ∧
      "Low contrast detected" ∈ (validateMarkerImage img256).issues ∧
      (validateMarkerImage img256).quality = 60) :=
  ⟨⟨le_rfl, le_rfl, rfl, fun _ => rfl⟩,
    uniform_image_validation img256 le_rfl le_rfl rfl (fun _ => rfl)⟩

/-- The events an `Image` element can fire after `img.src` is assigned:
`load` on a successful decode, `error` when the data cannot be decoded. -/
inductive LoadEvent where
  | load
  | error
deriving DecidableEq

/-- The handlers `validateMarkerImage` installs on the `Image` element it
creates (lines 27-94): only `onload` (line 31) is assigned; the function
installs no `onerror` handler. -/
def installedHandlers : List LoadEvent := [LoadEvent.load]

/-- What the browser's decoder produced for the uploaded file: a pixel
grid, or a failure for data it cannot parse into one. -/
inductive DecodeOutcome where
  | ok (img : Image)
  | failed

/-- How the promise created on line 26 settles, per decode outcome.  The
executor calls `resolve` only from the `onload` handler, so a successful
decode resolves with the validation result, while a failed decode fires
the `error` event, for which no handler is installed: the promise never
settles (`none`) — it is neither resolved nor rejected, and no error value
of any kind is produced. -/
def promiseSettlement : DecodeOutcome → Option ValidationResult
  | DecodeOutcome.ok img => some (validateMarkerImage img)
  | DecodeOutcome.failed => none

/-- C3: on a decode failure the code does NOT fail with a decode error —
no `onerror` handler is installed, so the promise never settles and
nothing (neither an error nor a partial result) reaches the caller, while
a successful decode resolves with the full result.  The claim's "fails
with a decode error that propagates to the caller" does not hold of the
code. -/
theorem decode_failure_never_settles :
    promiseSettlement DecodeOutcome.failed = none ∧
    LoadEvent.error ∉ installedHandlers ∧
    ∀ img : Image,
      promiseSettlement (DecodeOutcome.ok img) = some (validateMarkerImage img) :=
  ⟨rfl, by decide, fun _ => rfl⟩

lemma totalContrast_nonneg (img : Image) : 0 ≤ (edgeScan img).1 := by
  rw [edgeScan_eq]
  apply List.sum_nonneg
  intro x hx
  obtain ⟨p, _, rfl⟩ := List.mem_map.mp hx
  unfold contrib
  split_ifs
  · exact abs_nonneg _
  · exact le_rfl

lemma avgContrast_nonneg (img : Image) : 0 ≤ avgContrast img :=
  div_nonneg (totalContrast_nonneg img) (Nat.cast_nonneg _)

lemma quality_of_high_density (img : Image) (h : 1/10 ≤ edgeDensity img) :
    quality img = 100 := by
  unfold quality
  have h1 : (100 : ℚ) ≤ avgContrast img / 30 * 100 + edgeDensity img * 1000 := by
    have h2 := avgContrast_nonneg img
    nlinarith
  rw [max_eq_right (le_trans (by norm_num) h1)]
  exact min_eq_left h1

/-- C9: whenever `edgeDensity ≥ 0.1`, the `edgeDensity * 1000` term alone
reaches the upper clamp and the returned quality is exactly 100;
contrapositively, whenever the returned quality is below 100 the
recommendation "Add more distinct features or patterns for better
tracking" is present in the result. -/
theorem high_density_quality_100 (img : Image) :
    (1/10 ≤ edgeDensity img → (validateMarkerImage img).quality = 100) ∧
    ((validateMarkerImage img).quality < 100 →
      "Add more distinct features or patterns for better tracking"
        ∈ (validateMarkerImage img).recommendations) := by
  constructor
  · intro h
    exact quality_of_high_density img h
  · intro h
    rw [mem_recs_edge]
    by_contra hno
    push_neg at hno
    rw [show (validateMarkerImage img).quality = quality img from rfl,
      quality_of_high_density img hno] at h
    exact absurd h (by norm_num)

/-- A 1×3 image: two black pixels, then a white pixel;
`edgeDensity = 1/3 ≥ 1/10`. -/
def wImg1 : Image := ⟨1, 3, fun i => if i < 8 then 0 else 255⟩

/-- The 1×1 all-black image; its quality is 60. -/
def uImg : Image := ⟨1, 1, fun _ => 0⟩

theorem high_density_quality_100_witness :
    (1/10 ≤ edgeDensity wImg1 ∧ (validateMarkerImage wImg1).quality = 100) ∧
    ((validateMarkerImage uImg).quality < 100 ∧
      "Add more distinct features or patterns for better tracking"
        ∈ (validateMarkerImage uImg).recommendations) := by
  have h1 : 1/10 ≤ edgeDensity wImg1 := by
    simp [edgeDensity, pixelCount, edgeScan, edgeStep, brightnessAt, wImg1,
      List.range_succ]
    norm_num
  have h2 : (validateMarkerImage uImg).quality < 100 := by
    show quality uImg < 100
    simp [quality, avgContrast, edgeDensity, pixelCount, edgeScan, edgeStep,
      uImg, List.range_succ]
    norm_num
  exact ⟨⟨h1, (high_density_quality_100 wImg1).1 h1⟩,
    ⟨h2, (high_density_quality_100 uImg).2 h2⟩⟩

/-- The 256×256 image whose rows alternate between all-black and all-white:
byte `i` lies in pixel `i / 4`, hence in row `i / 1024`; even rows are
black (0), odd rows white (255). -/
def altImg : Image := ⟨256, 256, fun i => if (i / 1024) % 2 = 0 then 0 else 255⟩

lemma altImg_pixelBrightness (p : ℕ) :
    pixelBrightness altImg p = if (p / 256) % 2 = 0 then 0 else 255 := by
  unfold pixelBrightness brightnessAt altImg
  simp only
  rw [show p * 4 / 1024 = p / 256 from by omega,
    show (p * 4 + 1) / 1024 = p / 256 from by omega,
    show (p * 4 + 2) / 1024 = p / 256 from by omega]
  split_ifs <;> norm_num

lemma altImg_contrast (p : ℕ) (h : 256 < p) :
    |pixelBrightness altImg p - pixelBrightness altImg (p - 256)| = 255 := by
  rw [altImg_pixelBrightness, altImg_pixelBrightness]
  by_cases hp : (p / 256) % 2 = 0
  · rw [if_pos hp, if_neg (by omega)]
    norm_num
  · rw [if_neg hp, if_pos (by omega)]
    norm_num

lemma altImg_contrib (p : ℕ) :
    contrib altImg (p * 4) = if 256 < p then 255 else 0 := by
  rw [contrib_pixel]
  simp only [show altImg.width = 256 from rfl]
  split_ifs with h
  · exact altImg_contrast p h
  · rfl

lemma altImg_contribCount (p : ℕ) :
    contribCount altImg (p * 4) = if 256 < p then 1 else 0 := by
  rw [contribCount_pixel]
  simp only [show altImg.width = 256 from rfl]
  by_cases h : 256 < p
  · rw [if_pos ⟨h, by rw [altImg_contrast p h]; norm_num⟩, if_pos h]
  · rw [if_neg (by tauto), if_neg h]

lemma sum_map_range {M : Type} [AddCommMonoid M] (f : ℕ → M) (n : ℕ) :
    ((List.range n).map f).sum = ∑ p in Finset.range n, f p := by
  induction n with
  | zero => simp
  | succ n ih =>
      rw [List.range_succ, List.map_append, List.sum_append,
        Finset.sum_range_succ, ih]
      simp

lemma filter_gt_range_65536 :
    (Finset.range 65536).filter (fun p => 256 < p) = Finset.Ioo 256 65536 := by
  ext p
  simp [Finset.mem_filter, Finset.mem_range, Finset.mem_Ioo, and_comm]

lemma altImg_edgeScan : edgeScan altImg = (16646145, 65279) := by
  rw [edgeScan_eq]
  rw [show altImg.width * altImg.height = 65536 from rfl]
  refine Prod.ext ?_ ?_ <;> simp only
  · simp only [altImg_contrib]
    rw [sum_map_range, ← Finset.sum_filter, filter_gt_range_65536,
      Finset.sum_const, Nat.card_Ioo]
    norm_num
  · simp only [altImg_contribCount]
    rw [sum_map_range, ← Finset.sum_filter, filter_gt_range_65536,
      Finset.sum_const, Nat.card_Ioo]
    norm_num

/-- C7: the 256×256 image with alternating all-black and all-white rows has
`avgContrast ≥ 15` (so no "Low contrast detected" issue), a positive
`edgeCount`, no "Image resolution is too low" issue, and (its aspect ratio
being 1) no "Unusual aspect ratio detected" issue. -/
theorem altImg_validation :
    15 ≤ avgContrast altImg ∧
    0 < (edgeScan altImg).2 ∧
    "Low contrast detected" ∉ (validateMarkerImage altImg).issues ∧
    "Image resolution is too low" ∉ (validateMarkerImage altImg).issues ∧
    "Unusual aspect ratio detected" ∉ (validateMarkerImage altImg).issues := by
  have havg : avgContrast altImg = 16646145 / 65536 := by
    unfold avgContrast pixelCount
    rw [altImg_edgeScan, show altImg.width * altImg.height = 65536 from rfl]
    norm_num
  refine ⟨?_, ?_, ?_, ?_, ?_⟩
  · rw [havg]
    norm_num
  · rw [altImg_edgeScan]
    norm_num
  · rw [mem_issues_contrast, havg]
    norm_num
  · rw [mem_issues_resolution]
    rw [show altImg.width = 256 from rfl, show altImg.height = 256 from rfl]
    norm_num
  · rw [mem_issues_aspect]
    rw [show aspect altImg = (256 : ℚ) / 256 from rfl]
    norm_num
